import Mathlib

/-!
# FBG-SimPlus — GUI orchestration layer, shallow embedding

A shallow embedding of the run orchestration of FBG-SimPlus
(`new-application/gui/main_window.py` and `new-application/gui/worker.py`).

Modelling conventions:
* Python floats are modelled as `ℚ` (the validation logic only compares and
  subtracts, so exactness is preserved).
* The simulator object (`osa.simulator.OsaSimulator`) is external to the GUI
  sources; each of its method calls is modelled through a `SimOracle` that
  says whether the call raises and with which message.  The GUI code under
  verification only observes success/failure and the exception text.
* Python attribute presence is modelled with `Option`: `WorkerThread.run`
  never assigns `self.data`, so the `data` field stays `none` and reading it
  raises `AttributeError`, which a `PyOutcome.exn` value records.
* Qt signal emissions (`progress.emit`) and widget updates
  (`progress.setValue`) are recorded as lists of the emitted values; the
  `print` calls and gettext wrappers of the source are dropped.
-/

namespace FBGSim

/-- Strain mode selection (`osa.simulator.StrainTypes`, referenced by the GUI). -/
inductive StrainTypes where
  | NONE
  | UNIFORM
  | NON_UNIFORM
deriving DecidableEq, Repr

/-- Stress mode selection (`osa.simulator.StressTypes`). -/
inductive StressTypes where
  | NONE
  | INCLUDED
deriving DecidableEq, Repr

/-- Unit selection (`osa.simulator.SiUnits`); built from the SI checkbox via
`SiUnits(int(self.has_si_units.isChecked()))`. -/
inductive SiUnits where
  | millimeters
  | meters
deriving DecidableEq, Repr

/-- The widget contents `ParametersView.validate_params` reads from `self`.
`filepath_ok` models `Path(datafile).is_file()`; the text fields are already
parsed numbers (`locale.atof` in the source). -/
structure FormInputs where
  filepath : String
  filepath_ok : Bool
  has_si_units : Bool
  strain_type : StrainTypes
  stress_type : StressTypes
  has_emulate_temperature : Bool
  emulate_temperature_text : ℚ
  has_host_expansion : Bool
  host_expansion_coefficient_text : ℚ
  resolution : ℚ
  min_bandwidth : ℚ
  max_bandwidth : ℚ
  ambient_temperature : ℚ
  initial_refractive_index : ℚ
  mean_change_refractive_index : ℚ
  fringe_visibility : ℚ
  directional_refractive_p11 : ℚ
  directional_refractive_p12 : ℚ
  youngs_mod : ℚ
  poissons_coefficient : ℚ
  fiber_expansion_coefficient : ℚ
  thermo_optic : ℚ
  fbg_count : Nat
  fbg_length : ℚ
  tolerance : ℚ
  has_reflected_signal : Bool
  fbg_positions : List ℚ
  original_wavelengths : List ℚ
deriving DecidableEq, Repr

/-- The validated parameter record returned by `validate_params` (the `params`
dict of the source, keys in source order). -/
structure Params where
  units : SiUnits
  strain_type : StrainTypes
  stress_type : StressTypes
  emulate_temperature : Option ℚ
  host_expansion_coefficient : ℚ
  resolution : ℚ
  min_bandwidth : ℚ
  max_bandwidth : ℚ
  ambient_temperature : ℚ
  initial_refractive_index : ℚ
  mean_change_refractive_index : ℚ
  fringe_visibility : ℚ
  directional_refractive_p11 : ℚ
  directional_refractive_p12 : ℚ
  youngs_mod : ℚ
  poissons_coefficient : ℚ
  fiber_expansion_coefficient : ℚ
  thermo_optic : ℚ
  fbg_count : Nat
  fbg_length : ℚ
  tolerance : ℚ
  has_reflected_signal : Bool
  filepath : String
  fbg_positions : List ℚ
  original_wavelengths : List ℚ
deriving DecidableEq, Repr

/-- The distinct `raise ValueError` sites of `validate_params`, in source
order. -/
inductive ValidationError where
  | invalidDataFile
  | positionsCountMismatch
  | positionsTooClose
  | wavelengthBelowMin
  | wavelengthAboveMax
  | wavelengthsCountMismatch
deriving DecidableEq, Repr

/-- The user-facing message of each `ValueError` (formatting placeholders of
the source dropped). -/
def errorText : ValidationError → String
  | .invalidDataFile => "is not a valid data file."
  | .positionsCountMismatch => "Sensors count and positions count should be equal."
  | .positionsTooClose => "Two consecutive FBG positions cannot be shorter than FBG length."
  | .wavelengthBelowMin => "At least one wavelength is below the minimum bandwidth setting."
  | .wavelengthAboveMax => "At least one wavelength is above the maximum bandwidth setting."
  | .wavelengthsCountMismatch => "Sensors count and original wavelengths count must be equal."

/-- Python `min(l, default=d)`: `d` when the list is empty, otherwise the least
element of the list (the default is ignored for nonempty input). -/
def pyMin (l : List ℚ) (d : ℚ) : ℚ :=
  match l with
  | [] => d
  | x :: xs => xs.foldl min x

/-- Python `max(l, default=d)`. -/
def pyMax (l : List ℚ) (d : ℚ) : ℚ :=
  match l with
  | [] => d
  | x :: xs => xs.foldl max x

/-- `[right - left for left, right in pairwise(fbg_positions)]`: the
difference of each adjacent pair, in order. -/
def pySteps (l : List ℚ) : List ℚ :=
  List.zipWith (fun left right => right - left) l l.tail

/-- `ParametersView.validate_params` (main_window.py lines 444-519): builds the
parameter record, then checks the data file path, the positions count, the
consecutive spacing against `fbg_length` (note: `tolerance` is not used here),
the wavelength range against the bandwidth bounds (strict comparisons, with
the bound itself as Python `min`/`max` default), and the wavelengths count. -/
def validate_params (f : FormInputs) : Except ValidationError Params :=
  let ps : Params :=
    { units := if f.has_si_units then SiUnits.meters else SiUnits.millimeters
      strain_type := f.strain_type
      stress_type := f.stress_type
      emulate_temperature :=
        if f.has_emulate_temperature then some f.emulate_temperature_text else none
      host_expansion_coefficient :=
        if f.has_host_expansion then f.host_expansion_coefficient_text
        else f.fiber_expansion_coefficient
      resolution := f.resolution
      min_bandwidth := f.min_bandwidth
      max_bandwidth := f.max_bandwidth
      ambient_temperature := f.ambient_temperature
      initial_refractive_index := f.initial_refractive_index
      mean_change_refractive_index := f.mean_change_refractive_index
      fringe_visibility := f.fringe_visibility
      directional_refractive_p11 := f.directional_refractive_p11
      directional_refractive_p12 := f.directional_refractive_p12
      youngs_mod := f.youngs_mod
      poissons_coefficient := f.poissons_coefficient
      fiber_expansion_coefficient := f.fiber_expansion_coefficient
      thermo_optic := f.thermo_optic
      fbg_count := f.fbg_count
      fbg_length := f.fbg_length
      tolerance := f.tolerance
      has_reflected_signal := f.has_reflected_signal
      filepath := f.filepath
      fbg_positions := f.fbg_positions
      original_wavelengths := f.original_wavelengths }
  if f.filepath_ok = false then Except.error ValidationError.invalidDataFile
  else if f.fbg_positions.length ≠ f.fbg_count then
    Except.error ValidationError.positionsCountMismatch
  else if pyMin (pySteps f.fbg_positions) f.fbg_length < f.fbg_length then
    Except.error ValidationError.positionsTooClose
  else if pyMin f.original_wavelengths f.min_bandwidth < f.min_bandwidth then
    Except.error ValidationError.wavelengthBelowMin
  else if f.max_bandwidth < pyMax f.original_wavelengths f.max_bandwidth then
    Except.error ValidationError.wavelengthAboveMax
  else if f.original_wavelengths.length ≠ f.fbg_count then
    Except.error ValidationError.wavelengthsCountMismatch
  else Except.ok ps

/-- The result dict the GUI expects a successful worker to hold (wavelength
grid and reflectance series, per the plot-view contract). -/
structure SimData where
  wavelength : List ℚ
  reflec : List ℚ
deriving DecidableEq, Repr

/-- `gui.worker.WorkerThread` state after `__init__` (worker.py lines 8-17).
`__init__` pops `units`, `has_reflected_signal`, `strain_type`, `stress_type`
and `filepath` off the params dict and keeps the rest as `self.params` (kept
whole here).  The `data` field models the Python attribute `self.data`, which
no method of the class ever assigns: it stays `none`. -/
structure WorkerThread where
  units : SiUnits
  include_underformed_signal : Bool
  strain_type : StrainTypes
  stress_type : StressTypes
  datafile : String
  params : Params
  error_message : String
  data : Option SimData
deriving DecidableEq, Repr

/-- `WorkerThread.__init__(params)`. -/
def WorkerThread.init (ps : Params) : WorkerThread :=
  { units := ps.units
    include_underformed_signal := ps.has_reflected_signal
    strain_type := ps.strain_type
    stress_type := ps.stress_type
    datafile := ps.filepath
    params := ps
    error_message := ""
    data := none }

/-- One simulator call made by `WorkerThread.run`, with the arguments actually
passed at the call site. -/
inductive StageCall where
  | from_file
  | undeformed_fbg
  | deformed_fbg (strain_type : StrainTypes) (stress_type : StressTypes)
  | compute_fbg_shifts_and_widths (strain_type : StrainTypes) (stress_type : StressTypes)
deriving DecidableEq, Repr

/-- Environment for one run: whether each simulator call raises, and the
exception text (`str(err)`) if so.  `init_error` covers the
`OsaSimulator(**self.params)` construction. -/
structure SimOracle where
  init_error : Option String
  from_file_error : Option String
  undeformed_error : Option String
  deformed_error : Option String
  summary_error : Option String
deriving DecidableEq, Repr

/-- The environment in which every simulator call succeeds. -/
def allOk : SimOracle := ⟨none, none, none, none, none⟩

/-- What one execution of `WorkerThread.run` did: the worker object as mutated
by the method, the values emitted on the `progress` signal (in order), and the
simulator calls issued (in order, including a call that raised). -/
structure RunResult where
  worker : WorkerThread
  emits : List Nat
  calls : List StageCall
deriving DecidableEq, Repr

/-- `WorkerThread.run` (worker.py lines 19-47): emit 13; inside `try`,
construct the simulator, `from_file`, emit 21; if the undeformed signal is
requested, `undeformed_fbg` then emit 34; emit 55; `deformed_fbg` called with
the literal arguments `StrainTypes.NON_UNIFORM, StressTypes.INCLUDED`
(not `self.strain_type` / `self.stress_type`); emit 89;
`compute_fbg_shifts_and_widths`, again with the literal
`NON_UNIFORM, INCLUDED`; emit 100.  Any raise lands in `except`, which stores
`str(err)` in `self.error_message` and ends the method.  No branch assigns
`self.data`. -/
def WorkerThread.run (w : WorkerThread) (o : SimOracle) : RunResult :=
  match o.init_error with
  | some msg => ⟨{ w with error_message := msg }, [13], []⟩
  | none =>
    match o.from_file_error with
    | some msg => ⟨{ w with error_message := msg }, [13], [StageCall.from_file]⟩
    | none =>
      if w.include_underformed_signal then
        match o.undeformed_error with
        | some msg =>
            ⟨{ w with error_message := msg }, [13, 21],
              [StageCall.from_file, StageCall.undeformed_fbg]⟩
        | none =>
          match o.deformed_error with
          | some msg =>
              ⟨{ w with error_message := msg }, [13, 21, 34, 55],
                [StageCall.from_file, StageCall.undeformed_fbg,
                  StageCall.deformed_fbg StrainTypes.NON_UNIFORM StressTypes.INCLUDED]⟩
          | none =>
            match o.summary_error with
            | some msg =>
                ⟨{ w with error_message := msg }, [13, 21, 34, 55, 89],
                  [StageCall.from_file, StageCall.undeformed_fbg,
                    StageCall.deformed_fbg StrainTypes.NON_UNIFORM StressTypes.INCLUDED,
                    StageCall.compute_fbg_shifts_and_widths StrainTypes.NON_UNIFORM
                      StressTypes.INCLUDED]⟩
            | none =>
                ⟨w, [13, 21, 34, 55, 89, 100],
                  [StageCall.from_file, StageCall.undeformed_fbg,
                    StageCall.deformed_fbg StrainTypes.NON_UNIFORM StressTypes.INCLUDED,
                    StageCall.compute_fbg_shifts_and_widths StrainTypes.NON_UNIFORM
                      StressTypes.INCLUDED]⟩
      else
        match o.deformed_error with
        | some msg =>
            ⟨{ w with error_message := msg }, [13, 21, 55],
              [StageCall.from_file,
                StageCall.deformed_fbg StrainTypes.NON_UNIFORM StressTypes.INCLUDED]⟩
        | none =>
          match o.summary_error with
          | some msg =>
              ⟨{ w with error_message := msg }, [13, 21, 55, 89],
                [StageCall.from_file,
                  StageCall.deformed_fbg StrainTypes.NON_UNIFORM StressTypes.INCLUDED,
                  StageCall.compute_fbg_shifts_and_widths StrainTypes.NON_UNIFORM
                    StressTypes.INCLUDED]⟩
          | none =>
              ⟨w, [13, 21, 55, 89, 100],
                [StageCall.from_file,
                  StageCall.deformed_fbg StrainTypes.NON_UNIFORM StressTypes.INCLUDED,
                  StageCall.compute_fbg_shifts_and_widths StrainTypes.NON_UNIFORM
                    StressTypes.INCLUDED]⟩

/-- The `ParametersView` state the run lifecycle touches: the `self.worker`
reference, `self.simulation_data`, the progress-bar value, and the message
log (`self.console`, one entry per `println` line, `print_error` entries
prefixed). -/
structure ViewState where
  worker : Option WorkerThread
  simulation_data : Option SimData
  progressValue : Nat
  log : List String
deriving DecidableEq, Repr

/-- Result of running a Python method on the view: either it returns normally
or an exception escapes; either way the state at exit is carried. -/
inductive PyOutcome (σ : Type) where
  | ok (s : σ)
  | exn (err : String) (s : σ)
deriving DecidableEq, Repr

/-- The state a `PyOutcome` left behind. -/
def PyOutcome.state : PyOutcome σ → σ
  | .ok s => s
  | .exn _ s => s

/-- Whether an exception escaped. -/
def PyOutcome.raised : PyOutcome σ → Bool
  | .ok _ => false
  | .exn _ _ => true

/-- `print_error` (main_window.py line 441): logs `"ERROR: " + message`. -/
def print_error (s : ViewState) (message : String) : ViewState :=
  { s with log := s.log ++ ["ERROR: " ++ message] }

/-- What one call of `run_simulation` did: the view state on return, the
worker it constructed and started (if any), and the values it set on the
progress bar, in order. -/
structure RunSimResult where
  state : ViewState
  started : Option WorkerThread
  progressSets : List Nat
deriving DecidableEq, Repr

/-- `ParametersView.run_simulation` (main_window.py lines 521-540): if
`self.worker` is not `None`, report "already running" and return; otherwise
clear `simulation_data`, set the bar to 0, validate (a `ValueError` is
reported and ends the call), set the bar to 5, construct and start the
worker, set the bar to 8. -/
def run_simulation (s : ViewState) (form : FormInputs) : RunSimResult :=
  match s.worker with
  | some _ =>
      ⟨print_error s "A simulator session is already running.", none, []⟩
  | none =>
    let s1 : ViewState := { s with simulation_data := none, progressValue := 0 }
    match validate_params form with
    | Except.error e => ⟨print_error s1 (errorText e), none, [0]⟩
    | Except.ok ps =>
        let w := WorkerThread.init ps
        ⟨{ s1 with progressValue := 8, worker := some w }, some w, [0, 5, 8]⟩

/-- `ParametersView.worker_finished` (main_window.py lines 542-550): on a
falsy `error_message` it reads `self.worker.data` — an attribute `run` never
created, so Python raises `AttributeError` and the rest of the method
(including `self.worker = None`) is skipped.  On a truthy `error_message` it
logs the failure and resets the worker reference.  (The source line storing a
`"params"` key into the stored dict is unreachable and not modelled.) -/
def worker_finished (s : ViewState) : PyOutcome ViewState :=
  match s.worker with
  | none => PyOutcome.exn "AttributeError" s
  | some w =>
    if w.error_message ≠ "" then
      PyOutcome.ok
        { s with
          log := s.log ++ ["ERROR: Simulation has failed, reason: " ++ w.error_message]
          worker := none }
    else
      match w.data with
      | none => PyOutcome.exn "AttributeError" s
      | some d =>
          PyOutcome.ok
            { s with
              simulation_data := some d
              log := s.log ++ ["Simulation completed successfully."]
              worker := none }

/-- What `showPlot` did: the state on return and whether the plot dialog was
opened. -/
structure ShowPlotResult where
  state : ViewState
  shown : Bool
deriving DecidableEq, Repr

/-- `ParametersView.showPlot` (main_window.py lines 552-558): refuses with an
error message when `simulation_data` is `None`, otherwise opens the plot. -/
def showPlot (s : ViewState) : ShowPlotResult :=
  match s.simulation_data with
  | none =>
      ⟨print_error s "There is no data to show, please run the simulation first.", false⟩
  | some _ => ⟨s, true⟩

/-- One full run lifecycle: `run_simulation`, then (when a worker was started)
the worker body and the `finished`-signal handler `worker_finished`; the state
an escaping exception leaves behind is kept. -/
def fullRun (s : ViewState) (form : FormInputs) (o : SimOracle) : ViewState :=
  let r := run_simulation s form
  match r.started with
  | none => r.state
  | some w =>
      let rr := w.run o
      (worker_finished { r.state with worker := some rr.worker }).state

/-- All progress values the bar receives during one run, in order: the
`setValue` calls of `run_simulation` followed by the worker's `progress`
emissions (delivered queued, after `run_simulation` returned). -/
def fullProgress (s : ViewState) (form : FormInputs) (o : SimOracle) : List Nat :=
  let r := run_simulation s form
  match r.started with
  | none => r.progressSets
  | some w => r.progressSets ++ (w.run o).emits

/-- The values gathered by the dialog loop of `add_float_list`: `dialog i` is
what `QInputDialog.getDouble` returns for FBG number `i+1` (`none` = the user
cancelled).  Returns `none` as soon as one dialog is cancelled. -/
def collectValues (dialog : Nat → Option ℚ) : Nat → Nat → Option (List ℚ)
  | _, 0 => some []
  | i, n + 1 =>
    match dialog i with
    | some v => (collectValues dialog (i + 1) n).map (fun vs => v :: vs)
    | none => none

/-- `ParametersView.add_float_list` (main_window.py lines 357-375), acting on
the parsed contents of the target text widget: ask for `fbg_count` values; a
cancelled dialog returns with the widget untouched; otherwise `values.sort()`
(ascending, stable) and the sorted values replace the contents. -/
def add_float_list (count : Nat) (dialog : Nat → Option ℚ) (prev : List ℚ) : List ℚ :=
  match collectValues dialog 0 count with
  | none => prev
  | some vs => vs.insertionSort (fun a b => a ≤ b)

/-! Helper lemmas on the Python `min`/`max`-with-default model and the dialog
collection loop. -/

theorem foldl_min_lt_iff (xs : List ℚ) (a c : ℚ) :
    xs.foldl min a < c ↔ a < c ∨ ∃ x ∈ xs, x < c := by
  induction xs generalizing a with
  | nil => simp
  | cons y ys ih =>
      simp only [List.foldl_cons, ih, min_lt_iff, List.mem_cons]
      aesop

theorem lt_foldl_max_iff (xs : List ℚ) (a c : ℚ) :
    c < xs.foldl max a ↔ c < a ∨ ∃ x ∈ xs, c < x := by
  induction xs generalizing a with
  | nil => simp
  | cons y ys ih =>
      simp only [List.foldl_cons, ih, lt_max_iff, List.mem_cons]
      aesop

theorem pyMin_lt_iff (l : List ℚ) (d c : ℚ) :
    pyMin l d < c ↔ (l = [] ∧ d < c) ∨ ∃ x ∈ l, x < c := by
  cases l with
  | nil => simp [pyMin]
  | cons x xs =>
      simp only [pyMin, foldl_min_lt_iff, List.mem_cons, List.cons_ne_nil, false_and,
        false_or]
      aesop

theorem lt_pyMax_iff (l : List ℚ) (d c : ℚ) :
    c < pyMax l d ↔ (l = [] ∧ c < d) ∨ ∃ x ∈ l, c < x := by
  cases l with
  | nil => simp [pyMax]
  | cons x xs =>
      simp only [pyMax, lt_foldl_max_iff, List.mem_cons, List.cons_ne_nil, false_and,
        false_or]
      aesop

theorem collectValues_eq_none_iff (dialog : Nat → Option ℚ) (n : Nat) :
    ∀ i, collectValues dialog i n = none ↔ ∃ j, j < n ∧ dialog (i + j) = none := by
  induction n with
  | zero => intro i; simp [collectValues]
  | succ m ih =>
      intro i
      cases h : dialog i with
      | none =>
          simp only [collectValues, h]
          exact iff_of_true trivial ⟨0, Nat.succ_pos m, by simpa using h⟩
      | some v =>
          simp only [collectValues, h, Option.map_eq_none', ih (i + 1)]
          constructor
          · rintro ⟨j, hj, hd⟩
            refine ⟨j + 1, by omega, ?_⟩
            rwa [show i + (j + 1) = i + 1 + j by omega]
          · rintro ⟨j, hj, hd⟩
            cases j with
            | zero => simp only [Nat.add_zero] at hd; simp [hd] at h
            | succ k =>
                refine ⟨k, by omega, ?_⟩
                rwa [show i + 1 + k = i + (k + 1) by omega]

/-! Concrete fixtures: the form filled with the GUI default values (the
`value_text` defaults of `setup_ui`), and derived inputs used to evaluate the
theorems on concrete runs. -/

/-- The view state right after construction: no worker, no data, empty log. -/
def idleState : ViewState := ⟨none, none, 0, []⟩

/-- A form holding the GUI default values with one sensor at 22 mm / 1550 nm
and a readable data file. -/
def defaultForm : FormInputs :=
  { filepath := "sample/data.txt"
    filepath_ok := true
    has_si_units := false
    strain_type := StrainTypes.NONE
    stress_type := StressTypes.NONE
    has_emulate_temperature := false
    emulate_temperature_text := 29315 / 100
    has_host_expansion := false
    host_expansion_coefficient_text := 1 / 20000
    resolution := 1 / 20
    min_bandwidth := 1500
    max_bandwidth := 1600
    ambient_temperature := 29315 / 100
    initial_refractive_index := 146 / 100
    mean_change_refractive_index := 45 / 100000
    fringe_visibility := 1
    directional_refractive_p11 := 121 / 1000
    directional_refractive_p12 := 270 / 1000
    youngs_mod := 75000000000
    poissons_coefficient := 17 / 100
    fiber_expansion_coefficient := 55 / 100000000
    thermo_optic := 83 / 10000000
    fbg_count := 1
    fbg_length := 10
    tolerance := 1 / 100
    has_reflected_signal := true
    fbg_positions := [22]
    original_wavelengths := [1550] }

/-- The record `validate_params` produces for `defaultForm`. -/
def defaultParams : Params :=
  { units := SiUnits.millimeters
    strain_type := StrainTypes.NONE
    stress_type := StressTypes.NONE
    emulate_temperature := none
    host_expansion_coefficient := 55 / 100000000
    resolution := 1 / 20
    min_bandwidth := 1500
    max_bandwidth := 1600
    ambient_temperature := 29315 / 100
    initial_refractive_index := 146 / 100
    mean_change_refractive_index := 45 / 100000
    fringe_visibility := 1
    directional_refractive_p11 := 121 / 1000
    directional_refractive_p12 := 270 / 1000
    youngs_mod := 75000000000
    poissons_coefficient := 17 / 100
    fiber_expansion_coefficient := 55 / 100000000
    thermo_optic := 83 / 10000000
    fbg_count := 1
    fbg_length := 10
    tolerance := 1 / 100
    has_reflected_signal := true
    filepath := "sample/data.txt"
    fbg_positions := [22]
    original_wavelengths := [1550] }

theorem validate_defaultForm : validate_params defaultForm = Except.ok defaultParams := by
  rfl

/-! ## Claim theorems -/

/-- Claim C1: the spec promises that for every run completing without error
the outputs are delivered to the caller, `worker_finished` storing the worker
result into `simulation_data`.  The code cannot do this: `WorkerThread.run`
never assigns `self.data`, so on the success path `worker_finished` raises
`AttributeError` at `self.worker.data` and `simulation_data` is never
written.  This theorem evaluates the code there: after a fully successful
run, the worker's `data` attribute is absent and `worker_finished` raises. -/
theorem c1_success_result_never_delivered (ps : Params) (s : ViewState) :
    ((WorkerThread.init ps).run allOk).worker.data = none ∧
    worker_finished { s with worker := some ((WorkerThread.init ps).run allOk).worker } =
      PyOutcome.exn "AttributeError"
        { s with worker := some ((WorkerThread.init ps).run allOk).worker } := by
  cases h : ps.has_reflected_signal <;>
    simp [WorkerThread.run, WorkerThread.init, allOk, worker_finished, h]

/-- Claim C2: the spec says the deformed-spectrum stage and the summary stage
are invoked with the strain/stress modes of the validated record.  The code
contradicts this: `WorkerThread.run` passes the literals
`StrainTypes.NON_UNIFORM, StressTypes.INCLUDED` to both calls, ignoring the
`self.strain_type` / `self.stress_type` stored by `__init__`.  Evaluated at a
record whose selections are `NONE`/`NONE`: the calls made carry
`NON_UNIFORM`/`INCLUDED`, and no call carries the selected modes. -/
theorem c2_stage_modes_fixed_not_selected (ps : Params)
    (h1 : ps.strain_type = StrainTypes.NONE) (h2 : ps.stress_type = StressTypes.NONE) :
    StageCall.deformed_fbg StrainTypes.NON_UNIFORM StressTypes.INCLUDED ∈
        ((WorkerThread.init ps).run allOk).calls ∧
    StageCall.compute_fbg_shifts_and_widths StrainTypes.NON_UNIFORM StressTypes.INCLUDED ∈
        ((WorkerThread.init ps).run allOk).calls ∧
    StageCall.deformed_fbg ps.strain_type ps.stress_type ∉
        ((WorkerThread.init ps).run allOk).calls ∧
    StageCall.compute_fbg_shifts_and_widths ps.strain_type ps.stress_type ∉
        ((WorkerThread.init ps).run allOk).calls := by
  cases h : ps.has_reflected_signal <;>
    simp [WorkerThread.run, WorkerThread.init, allOk, h, h1, h2]

theorem c2_stage_modes_witness :
    StageCall.deformed_fbg StrainTypes.NON_UNIFORM StressTypes.INCLUDED ∈
        ((WorkerThread.init defaultParams).run allOk).calls ∧
    StageCall.compute_fbg_shifts_and_widths StrainTypes.NON_UNIFORM StressTypes.INCLUDED ∈
        ((WorkerThread.init defaultParams).run allOk).calls ∧
    StageCall.deformed_fbg defaultParams.strain_type defaultParams.stress_type ∉
        ((WorkerThread.init defaultParams).run allOk).calls ∧
    StageCall.compute_fbg_shifts_and_widths defaultParams.strain_type
        defaultParams.stress_type ∉
        ((WorkerThread.init defaultParams).run allOk).calls :=
  c2_stage_modes_fixed_not_selected defaultParams rfl rfl

/-- Claim C5: the spec says `worker_finished` always resets the worker
reference, releasing the run-admission gate after success as well as failure.
The code contradicts this on the success path: the `AttributeError` raised at
`self.worker.data` (see C1) escapes before `self.worker = None` runs, so
after a successful run the view still holds the finished worker and every
later run request is rejected.  This theorem evaluates the code there. -/
theorem c5_gate_not_released_after_success (ps : Params) (s : ViewState) :
    (worker_finished
        { s with worker := some ((WorkerThread.init ps).run allOk).worker }).state.worker =
      some ((WorkerThread.init ps).run allOk).worker := by
  cases h : ps.has_reflected_signal <;>
    simp [WorkerThread.run, WorkerThread.init, allOk, worker_finished, PyOutcome.state, h]

/-- Claim C9: the undeformed spectrum is computed only when the
undeformed-signal flag is set; with the flag clear the deformed spectrum and
the summaries are still produced; with the flag set the undeformed call comes
before the deformed one.  All three facts are read off the exact call
sequence of a fully successful `WorkerThread.run`. -/
theorem c9_undeformed_only_if_requested (ps : Params) :
    ((WorkerThread.init ps).run allOk).calls =
      [StageCall.from_file]
        ++ (if ps.has_reflected_signal then [StageCall.undeformed_fbg] else [])
        ++ [StageCall.deformed_fbg StrainTypes.NON_UNIFORM StressTypes.INCLUDED,
            StageCall.compute_fbg_shifts_and_widths StrainTypes.NON_UNIFORM
              StressTypes.INCLUDED] := by
  cases h : ps.has_reflected_signal <;>
    simp [WorkerThread.run, WorkerThread.init, allOk, h]

/-- Whether `validate_params` accepted the form (no `ValueError` raised). -/
def validationPassed (f : FormInputs) : Bool :=
  match validate_params f with
  | Except.ok _ => true
  | Except.error _ => false

/-- Two sensors of length 10 mm with tolerance 0.01 mm at 10 mm and 20 mm:
the spacing 10 is below length + tolerance = 10.01 but not below the
length. -/
def c3Form : FormInputs :=
  { defaultForm with
    fbg_count := 2
    fbg_positions := [10, 20]
    original_wavelengths := [1510, 1550] }

/-- Two sensors at 10 mm and 15 mm with length 10 mm (the spec scenario
input). -/
def c3ViolForm : FormInputs :=
  { defaultForm with
    fbg_count := 2
    fbg_positions := [10, 15]
    original_wavelengths := [1510, 1550] }

/-- The record `validate_params` produces for `c3Form`. -/
def c3Params : Params :=
  { defaultParams with
    fbg_count := 2
    fbg_positions := [10, 20]
    original_wavelengths := [1510, 1550] }

/-- Claim C3 as stated is false on the code: the spacing check of
`validate_params` compares consecutive steps against `fbg_length` alone and
never adds `tolerance`.  With positions 10 and 20, length 10 and
tolerance 0.01, the spacing is closer than length + tolerance, yet validation
accepts the form and `run_simulation` starts a worker. -/
theorem c3_spacing_counterexample :
    (20 : ℚ) - 10 < c3Form.fbg_length + c3Form.tolerance ∧
    validate_params c3Form = Except.ok c3Params ∧
    (run_simulation idleState c3Form).started = some (WorkerThread.init c3Params) := by
  have hok : validate_params c3Form = Except.ok c3Params := by
    simp only [validate_params, c3Form, c3Params, defaultForm, defaultParams]
    norm_num [pySteps, pyMin, pyMax, min_def, max_def]
  refine ⟨by norm_num [c3Form, defaultForm], hok, ?_⟩
  simp [run_simulation, idleState, hok]

/-- Claim C3, amended to what the code enforces: whenever two consecutive
sensor positions are closer than the grating length (tolerance plays no
part), validation rejects the run with the layout `ValueError`, and
`run_simulation` returns without constructing or starting a worker — hence
before any spectrum computation. -/
theorem c3_too_close_rejected_before_worker (s : ViewState) (form : FormInputs)
    (hw : s.worker = none)
    (hfile : form.filepath_ok = true)
    (hcount : form.fbg_positions.length = form.fbg_count)
    (hgap : ∃ st ∈ pySteps form.fbg_positions, st < form.fbg_length) :
    validate_params form = Except.error ValidationError.positionsTooClose ∧
    (run_simulation s form).started = none ∧
    (run_simulation s form).state.worker = none ∧
    (run_simulation s form).state.log =
      s.log ++ ["ERROR: " ++ errorText ValidationError.positionsTooClose] := by
  have hmin : pyMin (pySteps form.fbg_positions) form.fbg_length < form.fbg_length :=
    (pyMin_lt_iff _ _ _).mpr (Or.inr hgap)
  have hv : validate_params form = Except.error ValidationError.positionsTooClose := by
    simp [validate_params, hfile, hcount, hmin]
  refine ⟨hv, ?_, ?_, ?_⟩ <;> simp [run_simulation, hw, hv, print_error]

theorem c3_too_close_witness :
    validate_params c3ViolForm = Except.error ValidationError.positionsTooClose ∧
    (run_simulation idleState c3ViolForm).started = none ∧
    (run_simulation idleState c3ViolForm).state.worker = none ∧
    (run_simulation idleState c3ViolForm).state.log =
      idleState.log ++ ["ERROR: " ++ errorText ValidationError.positionsTooClose] :=
  c3_too_close_rejected_before_worker idleState c3ViolForm rfl rfl rfl
    ⟨5, by norm_num [pySteps, c3ViolForm, defaultForm],
      by norm_num [c3ViolForm, defaultForm]⟩

/-- A view state in which a run is in flight. -/
def busyState : ViewState :=
  { idleState with worker := some (WorkerThread.init defaultParams) }

/-- Claim C4: while `self.worker` is non-null, `run_simulation` logs the
"already running" notice and returns at once: no second worker is constructed
or started, and the worker reference, `simulation_data` and the progress bar
are all left untouched — so at most one run is ever in flight. -/
theorem c4_second_run_rejected (s : ViewState) (form : FormInputs) (w : WorkerThread)
    (hw : s.worker = some w) :
    (run_simulation s form).started = none ∧
    (run_simulation s form).state.worker = s.worker ∧
    (run_simulation s form).state.simulation_data = s.simulation_data ∧
    (run_simulation s form).state.progressValue = s.progressValue ∧
    (run_simulation s form).progressSets = [] ∧
    (run_simulation s form).state.log =
      s.log ++ ["ERROR: A simulator session is already running."] := by
  simp [run_simulation, hw, print_error]

theorem c4_second_run_witness :
    (run_simulation busyState defaultForm).started = none ∧
    (run_simulation busyState defaultForm).state.worker = busyState.worker ∧
    (run_simulation busyState defaultForm).state.simulation_data =
      busyState.simulation_data ∧
    (run_simulation busyState defaultForm).state.progressValue =
      busyState.progressValue ∧
    (run_simulation busyState defaultForm).progressSets = [] ∧
    (run_simulation busyState defaultForm).state.log =
      busyState.log ++ ["ERROR: A simulator session is already running."] :=
  c4_second_run_rejected busyState defaultForm (WorkerThread.init defaultParams) rfl

/-- Claim C6: within one successful run the values reaching the progress bar
form a monotonically non-decreasing integer sequence ending in 100.  The
fixed checkpoints sit where `run` emits them: 21 right after `from_file`
returns, 34 right after `undeformed_fbg` (present only when the undeformed
signal is requested), 89 right after `deformed_fbg`, 100 right after
`compute_fbg_shifts_and_widths`; 0, 5, 8 come from `run_simulation` and 13
and 55 are emitted at stage starts. -/
theorem c6_progress_monotone_to_100 (s : ViewState) (form : FormInputs) (ps : Params)
    (hw : s.worker = none) (hvalid : validate_params form = Except.ok ps) :
    fullProgress s form allOk =
      [0, 5, 8, 13, 21] ++ (if ps.has_reflected_signal then [34] else [])
        ++ [55, 89, 100] ∧
    List.Chain' (fun a b => a ≤ b) (fullProgress s form allOk) ∧
    (fullProgress s form allOk).getLast? = some 100 := by
  have htr : fullProgress s form allOk =
      [0, 5, 8, 13, 21] ++ (if ps.has_reflected_signal then [34] else [])
        ++ [55, 89, 100] := by
    cases h : ps.has_reflected_signal <;>
      simp [fullProgress, run_simulation, hw, hvalid, WorkerThread.run, WorkerThread.init,
        allOk, h]
  refine ⟨htr, ?_, ?_⟩ <;> rw [htr] <;> cases ps.has_reflected_signal <;> simp

theorem c6_progress_witness :
    fullProgress idleState defaultForm allOk =
      [0, 5, 8, 13, 21] ++ (if defaultParams.has_reflected_signal then [34] else [])
        ++ [55, 89, 100] ∧
    List.Chain' (fun a b => a ≤ b) (fullProgress idleState defaultForm allOk) ∧
    (fullProgress idleState defaultForm allOk).getLast? = some 100 :=
  c6_progress_monotone_to_100 idleState defaultForm defaultParams rfl (by rfl)

/-- In any environment, the calls a run makes are a prefix of the calls a
fully successful run makes: a raising stage ends the method and the remaining
stages are skipped. -/
theorem run_calls_prefix (w : WorkerThread) (o : SimOracle) :
    ∃ rest, (w.run o).calls ++ rest = (w.run allOk).calls := by
  rcases o with ⟨i, f, u, d, m⟩
  cases h : w.include_underformed_signal <;>
    rcases i with _ | mi <;> rcases f with _ | mf <;> rcases u with _ | mu <;>
    rcases d with _ | md <;> rcases m with _ | ms <;>
    simp only [WorkerThread.run, allOk, h] <;> exact ⟨_, rfl⟩

/-- An environment in which loading the data file raises an exception whose
`str(err)` is empty (e.g. `raise Exception()`). -/
def emptyMsgOracle : SimOracle := ⟨none, some "", none, none, none⟩

/-- Claim C7 as stated is false on the code: it promises that for any
exception raised in any stage exactly one descriptive error message is
recorded and reported.  An exception with an empty `str(err)` refutes it:
`run` stores `error_message = ""`, the truthiness test
`if self.worker.error_message:` in `worker_finished` is falsy, so the method
takes the success branch and dies with `AttributeError` at
`self.worker.data` — nothing is reported (the log stays empty) and the
worker reference is never cleared.  Only the no-partial-result part survives:
`simulation_data` stays `None`. -/
theorem c7_empty_message_counterexample :
    emptyMsgOracle.from_file_error = some "" ∧
    ((WorkerThread.init defaultParams).run emptyMsgOracle).worker.error_message = "" ∧
    (fullRun idleState defaultForm emptyMsgOracle).log = [] ∧
    (fullRun idleState defaultForm emptyMsgOracle).worker =
      some ((WorkerThread.init defaultParams).run emptyMsgOracle).worker ∧
    (fullRun idleState defaultForm emptyMsgOracle).simulation_data = none := by
  refine ⟨rfl, rfl, ?_, ?_, ?_⟩ <;>
    simp [fullRun, run_simulation, idleState, validate_defaultForm, worker_finished,
      PyOutcome.state, WorkerThread.run, WorkerThread.init, emptyMsgOracle]

/-- Claim C7, amended to what the code guarantees: if any stage of the worker
raises an exception whose message `str(err)` is non-empty, that single
descriptive message is recorded and reported once in the log, the remaining
stages are skipped (the issued calls are a prefix of a successful run's
calls), and no partial result is surfaced: `simulation_data`, cleared by
`run_simulation`, is still `None` after the run, so `showPlot` refuses to
show anything.  (An empty-message exception still surfaces no partial
result, but reports nothing and leaves the worker reference set — see the
counterexample.) -/
theorem c7_failure_no_partial_result (s : ViewState) (form : FormInputs) (o : SimOracle)
    (ps : Params) (hw : s.worker = none) (hvalid : validate_params form = Except.ok ps)
    (hfail : ((WorkerThread.init ps).run o).worker.error_message ≠ "") :
    (fullRun s form o).simulation_data = none ∧
    (fullRun s form o).worker = none ∧
    (fullRun s form o).log =
      s.log ++ ["ERROR: Simulation has failed, reason: " ++
        ((WorkerThread.init ps).run o).worker.error_message] ∧
    (showPlot (fullRun s form o)).shown = false ∧
    ∃ rest, ((WorkerThread.init ps).run o).calls ++ rest =
      ((WorkerThread.init ps).run allOk).calls := by
  have hfull : fullRun s form o =
      { worker := none
        simulation_data := none
        progressValue := 8
        log := s.log ++ ["ERROR: Simulation has failed, reason: " ++
          ((WorkerThread.init ps).run o).worker.error_message] } := by
    simp [fullRun, run_simulation, hw, hvalid, worker_finished, hfail, PyOutcome.state]
  refine ⟨by rw [hfull], by rw [hfull], by rw [hfull], ?_, run_calls_prefix _ o⟩
  rw [hfull]
  simp [showPlot]

/-- An environment in which loading the data file raises. -/
def loadFailOracle : SimOracle := ⟨none, some "boom", none, none, none⟩

theorem c7_failure_witness :
    (fullRun idleState defaultForm loadFailOracle).simulation_data = none ∧
    (fullRun idleState defaultForm loadFailOracle).worker = none ∧
    (fullRun idleState defaultForm loadFailOracle).log =
      idleState.log ++ ["ERROR: Simulation has failed, reason: " ++
        ((WorkerThread.init defaultParams).run loadFailOracle).worker.error_message] ∧
    (showPlot (fullRun idleState defaultForm loadFailOracle)).shown = false ∧
    ∃ rest, ((WorkerThread.init defaultParams).run loadFailOracle).calls ++ rest =
      ((WorkerThread.init defaultParams).run allOk).calls :=
  c7_failure_no_partial_result idleState defaultForm loadFailOracle defaultParams rfl
    (by rfl) (by simp [WorkerThread.run, WorkerThread.init, loadFailOracle])

/-- Claim C8: with the earlier checks passing (readable file, matching
positions), validation fails with one of the two wavelength-range errors if
and only if some entered wavelength lies strictly below `min_bandwidth` or
strictly above `max_bandwidth` — the comparisons in the source are strict, so
a wavelength equal to either bound is accepted. -/
theorem c8_wavelength_range_iff (form : FormInputs)
    (hfile : form.filepath_ok = true)
    (hcount : form.fbg_positions.length = form.fbg_count)
    (hgap : ¬ pyMin (pySteps form.fbg_positions) form.fbg_length < form.fbg_length) :
    (validate_params form = Except.error ValidationError.wavelengthBelowMin ∨
      validate_params form = Except.error ValidationError.wavelengthAboveMax) ↔
    ∃ w ∈ form.original_wavelengths,
      w < form.min_bandwidth ∨ form.max_bandwidth < w := by
  constructor
  · intro h
    by_cases hbelow :
        pyMin form.original_wavelengths form.min_bandwidth < form.min_bandwidth
    · rcases (pyMin_lt_iff _ _ _).mp hbelow with ⟨_, hdd⟩ | ⟨w, hw, hlt⟩
      · exact absurd hdd (lt_irrefl _)
      · exact ⟨w, hw, Or.inl hlt⟩
    · by_cases habove :
          form.max_bandwidth < pyMax form.original_wavelengths form.max_bandwidth
      · rcases (lt_pyMax_iff _ _ _).mp habove with ⟨_, hdd⟩ | ⟨w, hw, hgt⟩
        · exact absurd hdd (lt_irrefl _)
        · exact ⟨w, hw, Or.inr hgt⟩
      · exfalso
        by_cases hcw : form.original_wavelengths.length = form.fbg_count <;>
          rcases h with h | h <;>
          simp [validate_params, hfile, hcount, hgap, hbelow, habove, hcw] at h
  · rintro ⟨w, hw, hlt | hgt⟩
    · have hbelow :
          pyMin form.original_wavelengths form.min_bandwidth < form.min_bandwidth :=
        (pyMin_lt_iff _ _ _).mpr (Or.inr ⟨w, hw, hlt⟩)
      left
      simp [validate_params, hfile, hcount, hgap, hbelow]
    · by_cases hbelow :
          pyMin form.original_wavelengths form.min_bandwidth < form.min_bandwidth
      · left
        simp [validate_params, hfile, hcount, hgap, hbelow]
      · have habove :
            form.max_bandwidth < pyMax form.original_wavelengths form.max_bandwidth :=
          (lt_pyMax_iff _ _ _).mpr (Or.inr ⟨w, hw, hgt⟩)
        right
        simp [validate_params, hfile, hcount, hgap, hbelow, habove]

/-- Two sensors whose first wavelength 1499 lies strictly below the 1500
minimum bandwidth. -/
def c8LowForm : FormInputs :=
  { defaultForm with
    fbg_count := 2
    fbg_positions := [10, 30]
    original_wavelengths := [1499, 1550] }

/-- Two sensors whose wavelengths sit exactly on the 1500 and 1600 bandwidth
bounds. -/
def c8EdgeForm : FormInputs :=
  { defaultForm with
    fbg_count := 2
    fbg_positions := [10, 30]
    original_wavelengths := [1500, 1600] }

theorem c8_wavelength_range_witness :
    (validate_params c8LowForm = Except.error ValidationError.wavelengthBelowMin ∨
      validate_params c8LowForm = Except.error ValidationError.wavelengthAboveMax) ∧
    ¬ (validate_params c8EdgeForm = Except.error ValidationError.wavelengthBelowMin ∨
      validate_params c8EdgeForm = Except.error ValidationError.wavelengthAboveMax) := by
  have hgapLow : ¬ pyMin (pySteps c8LowForm.fbg_positions) c8LowForm.fbg_length <
      c8LowForm.fbg_length := by
    norm_num [pySteps, pyMin, c8LowForm, defaultForm]
  have hgapEdge : ¬ pyMin (pySteps c8EdgeForm.fbg_positions) c8EdgeForm.fbg_length <
      c8EdgeForm.fbg_length := by
    norm_num [pySteps, pyMin, c8EdgeForm, defaultForm]
  constructor
  · exact (c8_wavelength_range_iff c8LowForm rfl rfl hgapLow).mpr
      ⟨1499, by norm_num [c8LowForm, defaultForm], Or.inl (by norm_num [c8LowForm, defaultForm])⟩
  · intro h
    rcases (c8_wavelength_range_iff c8EdgeForm rfl rfl hgapEdge).mp h with ⟨w, hw, hout⟩
    have : w = 1500 ∨ w = 1600 := by
      simpa [c8EdgeForm, defaultForm] using hw
    rcases this with rfl | rfl <;>
      rcases hout with hout | hout <;>
      norm_num [c8EdgeForm, defaultForm] at hout

/-- Claim C10: for any sequence of dialog answers, if the user cancels one of
the first `fbg_count` entries the stored list is untouched (no partial list
is written); if no entry is cancelled the stored list is the entered values
sorted into non-decreasing order, whatever order they were typed in. -/
theorem c10_add_float_list_sorted_or_unchanged (count : Nat) (dialog : Nat → Option ℚ)
    (prev : List ℚ) :
    ((∃ i, i < count ∧ dialog i = none) → add_float_list count dialog prev = prev) ∧
    ((∀ i, i < count → dialog i ≠ none) →
      List.Sorted (fun a b : ℚ => a ≤ b) (add_float_list count dialog prev)) := by
  constructor
  · rintro ⟨i, hi, hd⟩
    have hnone : collectValues dialog 0 count = none :=
      (collectValues_eq_none_iff dialog count 0).mpr ⟨i, hi, by simpa using hd⟩
    simp [add_float_list, hnone]
  · intro hall
    have hne : collectValues dialog 0 count ≠ none := by
      intro hcol
      rcases (collectValues_eq_none_iff dialog count 0).mp hcol with ⟨j, hj, hd⟩
      exact hall j hj (by simpa using hd)
    rcases Option.ne_none_iff_exists'.mp hne with ⟨vs, hvs⟩
    simp only [add_float_list, hvs]
    exact List.sorted_insertionSort _ vs

/-- Dialog answers 7 then 3 (typed out of order). -/
def c10Dialog : Nat → Option ℚ := fun i => if i = 0 then some 7 else some 3

/-- Dialog answers 7 then cancel. -/
def c10CancelDialog : Nat → Option ℚ := fun i => if i = 0 then some 7 else none

theorem c10_add_float_list_witness :
    List.Sorted (fun a b : ℚ => a ≤ b) (add_float_list 2 c10Dialog [5]) ∧
    add_float_list 2 c10CancelDialog [5] = [5] :=
  ⟨(c10_add_float_list_sorted_or_unchanged 2 c10Dialog [5]).2
      (by intro i hi; interval_cases i <;> simp [c10Dialog]),
    (c10_add_float_list_sorted_or_unchanged 2 c10CancelDialog [5]).1
      ⟨1, by norm_num, by simp [c10CancelDialog]⟩⟩

end FBGSim
